import Mathlib

/-!
# Verification of the broid-alexa Adapter core

Shallow embedding of `src/broid-alexa/src/core/Adapter.ts` and proofs of the
specification's claims about it.

The adapter bridges Alexa webhook requests to a normalized messaging event
format.  The embedded pieces are:

* the inbound normalizer inside `setupRouter` (request body → message event);
* the outbound formatter inside `send` (send command → Alexa response payload);
* the correlation mechanism built on Node's `EventEmitter`
  (`emitter.once('response:<id>', …)` / `emitter.emit('response:<id>', …)` /
  `setTimeout(removeListener, 60000)`), modelled as a list of listeners with
  the documented once/emit/removeListener semantics;
* the straight-line action trace of the HTTP handler, for the ordering claims;
* `connect`, `getRouter` and the constructor's state.
-/

namespace BroidAlexa

/-! ## Inbound data model (request body, §6 of the spec; Adapter.ts lines 160-177) -/

/-- The nested `intent` object of an inbound request: `{ name, slots? }`.
Both fields are modelled as optional since `R.path` tolerates their absence. -/
structure IntentObj where
  name : Option String
  slots : Option (List (String × String))
deriving DecidableEq, Repr

/-- The `request` field of the inbound body: `{ type, intent? }`. -/
structure RequestObj where
  type : String
  intent : Option IntentObj
deriving DecidableEq, Repr

/-- The `session` field of the inbound body: `{ application, user }`.
The two objects are opaque to the adapter; they are modelled as tokens. -/
structure SessionObj where
  application : String
  user : String
deriving DecidableEq, Repr

/-- An inbound HTTP request body `{ request, session }`. -/
structure RequestBody where
  request : RequestObj
  session : SessionObj
deriving DecidableEq, Repr

/-- The normalized message event built by the router handler
(Adapter.ts lines 170-177).  `intentName` is optional because
`R.path(['intent','name'], request)` yields `undefined` on a missing path. -/
structure Message where
  application : String
  intentName : Option String
  messageID : String
  requestType : String
  slots : List (String × String)
  user : String
deriving DecidableEq, Repr

/-- `R.path(['intent','name'], request)`. -/
def RequestObj.intentNamePath (request : RequestObj) : Option String :=
  request.intent.bind (fun i => i.name)

/-- `R.path(['intent','slots'], request)`. -/
def RequestObj.intentSlotsPath (request : RequestObj) : Option (List (String × String)) :=
  request.intent.bind (fun i => i.slots)

/-- The inbound normalizer: body of the router handler that builds the
`message` object (Adapter.ts lines 161-177), with the fresh `uuid.v4()`
message id passed in as `messageID`. -/
def normalize (body : RequestBody) (messageID : String) : Message :=
  let request := body.request
  let session := body.session
  let requestType := request.type
  let intentName : Option String :=
    if requestType = "IntentRequest" then request.intentNamePath else some requestType
  { application := session.application
    intentName := intentName
    messageID := messageID
    requestType := requestType
    slots := request.intentSlotsPath.getD []
    user := session.user }

/-! ## Outbound data model and the `send` formatter (Adapter.ts lines 116-156) -/

/-- The `outputSpeech` object.  The code builds either
`{ text, type: 'PlainText' }` or `{ ssml, type: 'SSML' }`; absent fields are
`none`. -/
structure OutputSpeech where
  type : String
  text : Option String
  ssml : Option String
deriving DecidableEq, Repr

/-- The `card` object `{ content, title, type: 'Simple' }`. -/
structure Card where
  content : String
  title : String
  type : String
deriving DecidableEq, Repr

/-- The inner `response` object `{ card, outputSpeech, shouldEndSession }`. -/
structure AlexaResponse where
  card : Card
  outputSpeech : OutputSpeech
  shouldEndSession : Bool
deriving DecidableEq, Repr

/-- The emitted payload `{ response: … }` (Adapter.ts lines 145-151). -/
structure ResponseEnvelope where
  response : AlexaResponse
deriving DecidableEq, Repr

/-- The `send` input `{ to: { id }, object: { type, content, name? } }`. -/
structure SendData where
  toId : String
  objectType : String
  content : String
  name : Option String
deriving DecidableEq, Repr

/-- The successful result of `send`: `{ type: 'sent', serviceID }`. -/
structure SentResult where
  type : String
  serviceID : String
deriving DecidableEq, Repr

/-- The ways `send` can reject: the external schema validator failing, or
`new Error('Only Note is supported.')` — the spec's `UnsupportedContentType`. -/
inductive SendError where
  | validationError
  | onlyNoteSupported
deriving DecidableEq, Repr

/-- The channel name `response:<id>` used for correlation. -/
def responseChannel (id : String) : String := "response:" ++ id

/-- JS `String.prototype.startsWith`: prefix test on the character
sequence. -/
def strStartsWith (s pre : String) : Bool :=
  s.data.take pre.data.length == pre.data

/-- JS `String.prototype.endsWith`: suffix test on the character sequence. -/
def strEndsWith (s suf : String) : Bool :=
  s.data.reverse.take suf.data.length == suf.data.reverse

/-- A whitespace character as removed by JS `String.prototype.trim`. -/
def isSpaceChar (c : Char) : Bool :=
  c == ' ' || c == '\t' || c == '\n' || c == '\r'

/-- JS `String.prototype.trim`: drop leading and trailing whitespace. -/
def strTrim (s : String) : String :=
  String.mk (((s.data.dropWhile isSpaceChar).reverse.dropWhile isSpaceChar).reverse)

/-- The `outputSpeech` computation (Adapter.ts lines 127-137): default
PlainText, overridden to SSML when the raw content starts with `<speak>` and
ends with `</speak>`. -/
def buildOutputSpeech (content : String) : OutputSpeech :=
  if strStartsWith content "<speak>" && strEndsWith content "</speak>" then
    { type := "SSML", text := none, ssml := some content }
  else
    { type := "PlainText", text := some content, ssml := none }

/-- The full response payload built by `send` (Adapter.ts lines 139-151). -/
def buildResponse (data : SendData) : ResponseEnvelope :=
  { response :=
      { card := { content := data.content, title := data.name.getD "", type := "Simple" }
        outputSpeech := buildOutputSpeech data.content
        shouldEndSession := true } }

/-- `send` (Adapter.ts lines 116-156).  The external schema validation is a
black box; its outcome is the `validates` argument.  The result is the
promise outcome paired with the list of `(channel, payload)` events emitted
on the adapter's emitter. -/
def send (validates : Bool) (serviceID : String) (data : SendData) :
    Except SendError SentResult × List (String × ResponseEnvelope) :=
  if !validates then (Except.error SendError.validationError, [])
  else if data.objectType ≠ "Note" then (Except.error SendError.onlyNoteSupported, [])
  else
    (Except.ok { type := "sent", serviceID := serviceID },
     [(responseChannel data.toId, buildResponse data)])

/-! ## The correlation mechanism: EventEmitter listeners on `response:<id>`

The adapter's correlation table is Node's `EventEmitter`:
`register` = `emitter.once('response:' + id, cb)` together with
`setTimeout(() => emitter.removeListener('response:' + id, cb), 60000)`
(Adapter.ts lines 181-186); `deliver` = `emitter.emit('response:' + to, …)`
in `send` (line 153); `expire` = the scheduled `removeListener` firing.

The emitter is modelled by its registered listeners in registration order.
`emit` invokes every listener of the channel in order and removes those
registered with `once`; `removeListener` removes the most recently added
matching listener (at most one instance). -/

/-- A registered listener: its channel, an identifier for the callback
function reference, and whether it was registered with `once`. -/
structure Listener where
  channel : String
  cbId : Nat
  once : Bool
deriving DecidableEq, Repr

/-- The emitter state: registered listeners in registration order. -/
abbrev EmitterState := List Listener

/-- `emitter.once(ch, cb)`: append a once-listener. -/
def addOnceListener (st : EmitterState) (ch : String) (c : Nat) : EmitterState :=
  st ++ [⟨ch, c, true⟩]

/-- `emitter.emit(ch, …)`: the listeners of `ch` are invoked in order, and
those registered with `once` are removed.  Returns the new state and the
callback ids invoked, in invocation order. -/
def emitOn (st : EmitterState) (ch : String) : EmitterState × List Nat :=
  (st.filter (fun l => !(l.channel == ch && l.once)),
   (st.filter (fun l => l.channel == ch)).map (fun l => l.cbId))

/-- `emitter.removeListener(ch, cb)`: removes the most recently registered
matching listener (at most one instance). -/
def removeListener (st : EmitterState) (ch : String) (c : Nat) : EmitterState :=
  (st.reverse.eraseP (fun l => l.channel == ch && l.cbId == c)).reverse

/-- Whether some listener is registered on channel `ch`. -/
def hasListenerOn (st : EmitterState) (ch : String) : Bool :=
  st.any (fun l => l.channel == ch)

/-- A pending expiry timer: `setTimeout(() => removeListener(channel, cb), delayMs)`
(Adapter.ts lines 184-186). -/
structure ScheduledTimer where
  delayMs : Nat
  channel : String
  cbId : Nat
deriving DecidableEq, Repr

/-- The registration performed by the router handler for a fresh message id
(Adapter.ts lines 181-186): a once-listener on `response:<id>` plus a
60000 ms timer that will remove it. -/
def registerWithTimeout (st : EmitterState) (id : String) (c : Nat) :
    EmitterState × ScheduledTimer :=
  (addOnceListener st (responseChannel id) c, ⟨60000, responseChannel id, c⟩)

/-- The timer firing: it removes the registered listener. -/
def fireTimer (st : EmitterState) (t : ScheduledTimer) : EmitterState :=
  removeListener st t.channel t.cbId

/-- An operation on the correlation mechanism, with emitted payloads of
type `α`: registration of a key's listener, a delivery
(`emitter.emit('response:' + key, payload)` from `send`), or the expiry
timer's `removeListener`. -/
inductive CorrelationOp (α : Type) where
  | register (key : String) (cbId : Nat)
  | deliver (key : String) (payload : α)
  | expire (key : String) (cbId : Nat)
deriving DecidableEq, Repr

/-- One correlation operation: yields the new emitter state and the
invocations `(cbId, payload)` it caused. -/
def stepOp {α : Type} (st : EmitterState) : CorrelationOp α → EmitterState × List (Nat × α)
  | CorrelationOp.register k c => (addOnceListener st (responseChannel k) c, [])
  | CorrelationOp.deliver k p =>
      let r := emitOn st (responseChannel k)
      (r.1, r.2.map (fun c => (c, p)))
  | CorrelationOp.expire k c => (removeListener st (responseChannel k) c, [])

/-- Run a sequence of correlation operations, accumulating invocations. -/
def runOps {α : Type} (st : EmitterState) : List (CorrelationOp α) → EmitterState × List (Nat × α)
  | [] => (st, [])
  | op :: rest =>
      let r := stepOp st op
      let s := runOps r.1 rest
      (s.1, r.2 ++ s.2)

/-- Whether an operation is a later delivery or expiry on key `k`
(no registration). -/
def followupOnKey {α : Type} (k : String) : CorrelationOp α → Bool
  | CorrelationOp.register _ _ => false
  | CorrelationOp.deliver q _ => q == k
  | CorrelationOp.expire q _ => q == k

/-! ## The HTTP handler's action trace (Adapter.ts lines 160-188)

For the ordering claims the handler body is embedded as the sequence of
observable actions it performs, in program order. -/

/-- An observable action of the router handler or of the response listener
`(data) => res.json(data)`. -/
inductive HandlerStep where
  | publishMessage (msg : Message)
  | registerListener (channel : String) (cbId : Nat)
  | scheduleExpiry (delayMs : Nat) (channel : String) (cbId : Nat)
  | writeStatus (code : Nat)
deriving DecidableEq, Repr

/-- The straight-line trace of `handle` (Adapter.ts lines 160-188) for a
request body, the fresh `uuid.v4()` message id, and the identifier of the
`responseListener` closure:
`emitter.emit('message', message)` — `emitter.once('response:' + id, …)` —
`setTimeout(removeListener, 60000)` — `res.sendStatus(200)`. -/
def handleTrace (body : RequestBody) (messageID : String) (cbId : Nat) : List HandlerStep :=
  [HandlerStep.publishMessage (normalize body messageID),
   HandlerStep.registerListener (responseChannel messageID) cbId,
   HandlerStep.scheduleExpiry 60000 (responseChannel messageID) cbId,
   HandlerStep.writeStatus 200]

/-- An HTTP write on the response object of one request. -/
inductive HttpWrite (α : Type) where
  | status (code : Nat)
  | json (payload : α)
deriving DecidableEq, Repr

/-- The HTTP writes performed on one request's response object: the handler's
unconditional `res.sendStatus(200)` (line 188), followed by one
`res.json(data)` (line 179) for every invocation of that request's
`responseListener` caused by subsequent correlation operations.  The listener
for the request's message id is registered by the handler before it returns
(line 181). -/
def httpWritesFor {α : Type} (st : EmitterState) (messageID : String) (cbId : Nat)
    (ops : List (CorrelationOp α)) : List (HttpWrite α) :=
  HttpWrite.status 200 ::
    ((runOps (addOnceListener st (responseChannel messageID) cbId) ops).2.filter
        (fun q => q.1 == cbId)).map (fun q => HttpWrite.json q.2)

/-! ## Constructor, `connect` and `getRouter` (Adapter.ts lines 25-50, 69-80) -/

/-- Constructor options `IAdapterOptions`; only the fields the embedded code
reads.  `http` is an opaque options object (objects are truthy in JS whenever
present). -/
structure AdapterOptions where
  serviceID : Option String
  http : Option String
deriving DecidableEq, Repr

/-- The adapter state after construction, restricted to the fields the
claims mention: the service id, the `connected` flag (initially undefined,
i.e. falsy), the router, and the webhook server with its listening flag
(`none` when no server was created). -/
structure AdapterState where
  serviceID : String
  connected : Bool
  router : String
  webhookServer : Option Bool
deriving DecidableEq, Repr

/-- The constructor (Adapter.ts lines 25-37): `serviceID` is
`obj && obj.serviceID || uuid.v4()` (JS `||` falls through on the falsy
empty string), the router is built by `setupRouter`, and the webhook server
is created exactly when `obj && obj.http` is truthy. -/
def constructAdapter (obj : Option AdapterOptions) (freshId routerToken : String) :
    AdapterState :=
  let sid :=
    match obj.bind (fun o => o.serviceID) with
    | some s => if s = "" then freshId else s
    | none => freshId
  { serviceID := sid
    connected := false
    router := routerToken
    webhookServer := (obj.bind (fun o => o.http)).map (fun _ => false) }

/-- `getRouter` (Adapter.ts lines 45-50): `null` when a webhook server
exists, the initialized router otherwise. -/
def getRouter (a : AdapterState) : Option String :=
  if a.webhookServer.isSome then none else some a.router

/-- The object returned by `connect`: `{ type: 'connected', serviceID }`. -/
structure ConnectResult where
  type : String
  serviceID : String
deriving DecidableEq, Repr

/-- `connect` (Adapter.ts lines 69-80): if already connected, return the
connected indicator without touching any state; otherwise set `connected`,
start the webhook server when present, and return the same indicator. -/
def connect (a : AdapterState) : AdapterState × ConnectResult :=
  if a.connected then
    (a, { type := "connected", serviceID := a.serviceID })
  else
    ({ a with connected := true, webhookServer := a.webhookServer.map (fun _ => true) },
     { type := "connected", serviceID := a.serviceID })

/-! ## Helper lemmas about the emitter model -/

/-- From `hasListenerOn st ch = false`: no listener of `st` is on `ch`. -/
theorem listeners_ne_channel {st : EmitterState} {ch : String}
    (h : hasListenerOn st ch = false) : ∀ l ∈ st, (l.channel == ch) = false := by
  unfold hasListenerOn at h
  rw [List.any_eq_false] at h
  intro a ha
  simpa using h a ha

/-- Emitting on a channel with no registered listener invokes nothing and
leaves the emitter unchanged. -/
theorem emitOn_no_listener {st : EmitterState} {ch : String}
    (h : hasListenerOn st ch = false) : emitOn st ch = (st, []) := by
  have hne := listeners_ne_channel h
  unfold emitOn
  have h1 : st.filter (fun l => !(l.channel == ch && l.once)) = st := by
    refine List.filter_eq_self.mpr ?_
    intro a ha
    simp [hne a ha]
  have h2 : st.filter (fun l => l.channel == ch) = [] := by
    refine List.filter_eq_nil_iff.mpr ?_
    intro a ha
    simp [hne a ha]
  rw [h1, h2]
  rfl

/-- Removing a listener from a channel with no registered listener is a no-op. -/
theorem removeListener_no_listener {st : EmitterState} {ch : String} {c : Nat}
    (h : hasListenerOn st ch = false) : removeListener st ch c = st := by
  have hne := listeners_ne_channel h
  unfold removeListener
  rw [List.eraseP_of_forall_not]
  · exact st.reverse_reverse
  · intro a ha
    simp [hne a (List.mem_reverse.mp ha)]

/-- A sequence of deliveries and expiries on key `k` is a no-op on an
emitter with no listener on `k`'s response channel. -/
theorem runOps_followup_noop {α : Type} {k : String} (st : EmitterState)
    (ops : List (CorrelationOp α))
    (hfresh : hasListenerOn st (responseChannel k) = false)
    (hops : ∀ op ∈ ops, followupOnKey k op = true) :
    runOps st ops = (st, []) := by
  induction ops with
  | nil => rfl
  | cons op rest ih =>
    have hop := hops op (List.mem_cons_self op rest)
    have hrest : ∀ o ∈ rest, followupOnKey k o = true :=
      fun o ho => hops o (List.mem_cons_of_mem op ho)
    cases op with
    | register k' c => simp [followupOnKey] at hop
    | deliver k' p =>
      have hk : k' = k := by simpa [followupOnKey] using hop
      subst hk
      have he := emitOn_no_listener hfresh
      simp [runOps, stepOp, he, ih hrest]
    | expire k' c =>
      have hk : k' = k := by simpa [followupOnKey] using hop
      subst hk
      have he := removeListener_no_listener (c := c) hfresh
      simp [runOps, stepOp, he, ih hrest]

/-- Emitting on the response channel right after registering a fresh once
listener invokes exactly that listener and removes it. -/
theorem emitOn_after_register {st : EmitterState} {ch : String} {c : Nat}
    (h : hasListenerOn st ch = false) :
    emitOn (st ++ [⟨ch, c, true⟩]) ch = (st, [c]) := by
  have hne := listeners_ne_channel h
  unfold emitOn
  have h1 : (st ++ [(⟨ch, c, true⟩ : Listener)]).filter
      (fun l => !(l.channel == ch && l.once)) = st := by
    rw [List.filter_append]
    have hst : st.filter (fun l => !(l.channel == ch && l.once)) = st := by
      refine List.filter_eq_self.mpr ?_
      intro a ha
      simp [hne a ha]
    rw [hst]
    simp
  have h2 : (st ++ [(⟨ch, c, true⟩ : Listener)]).filter
      (fun l => l.channel == ch) = [⟨ch, c, true⟩] := by
    rw [List.filter_append]
    have hst : st.filter (fun l => l.channel == ch) = [] := by
      refine List.filter_eq_nil_iff.mpr ?_
      intro a ha
      simp [hne a ha]
    rw [hst]
    simp
  rw [h1, h2]
  rfl

/-! ## Claim theorems -/

/-- C1: the claim states that the response-listener registration under the
fresh correlation key happens before the normalized event is published on
the `message` channel.  The code does the opposite: in the handler's trace,
`emitter.emit('message', message)` (Adapter.ts line 180) is the first
action, and `emitter.once('response:' + messageID, responseListener)`
(line 181) only comes second, so the event is visible to consumers before
the listener exists. -/
theorem c1_publish_precedes_registration (body : RequestBody) (messageID : String)
    (cbId : Nat) :
    (handleTrace body messageID cbId).head? =
      some (HandlerStep.publishMessage (normalize body messageID))
    ∧ (handleTrace body messageID cbId)[1]? =
      some (HandlerStep.registerListener (responseChannel messageID) cbId) := by
  exact ⟨rfl, rfl⟩

/-- C2: the claim states that at most one HTTP response is written per
inbound request.  The code writes the unconditional empty
`res.sendStatus(200)` (Adapter.ts line 188) and additionally `res.json(data)`
(line 179) when a reply is delivered within the timeout: for a request with
message id `m1` whose reply is delivered once, two HTTP writes occur. -/
theorem c2_both_ack_and_json_written :
    httpWritesFor ([] : EmitterState) "m1" 0
        [CorrelationOp.deliver "m1"
          (buildResponse { toId := "m1", objectType := "Note", content := "hello", name := none })]
      = [HttpWrite.status 200,
         HttpWrite.json
           (buildResponse { toId := "m1", objectType := "Note", content := "hello", name := none })]
    ∧ (httpWritesFor ([] : EmitterState) "m1" 0
        [CorrelationOp.deliver "m1"
          (buildResponse { toId := "m1", objectType := "Note", content := "hello", name := none })]).length
      = 2 := by
  exact ⟨rfl, rfl⟩

/-- C3 counterexample: the claim classifies by the *trimmed* content.  For
the content `" <speak>hi</speak>"` the trimmed text starts with `<speak>`
and ends with `</speak>`, yet the code (which tests the raw content,
Adapter.ts line 132) classifies it PlainText, so the claimed equivalence is
false at this input. -/
theorem c3_trimmed_claim_false :
    ¬ (((buildOutputSpeech " <speak>hi</speak>").type = "SSML"
         ∧ (buildOutputSpeech " <speak>hi</speak>").ssml = some " <speak>hi</speak>")
        ↔ ((strStartsWith (strTrim " <speak>hi</speak>") "<speak>"
             && strEndsWith (strTrim " <speak>hi</speak>") "</speak>") = true)) := by
  decide

/-- C3 (amended): for every content string passed through `send` with
contentType Note, the emitted `outputSpeech` is classified SSML (with field
`ssml` equal to the raw content) if and only if the *raw* content both
starts with `<speak>` and ends with `</speak>`; every other content is
classified PlainText with field `text` equal to the raw content. -/
theorem c3_ssml_iff_raw_delimiters (serviceID : String) (data : SendData)
    (hNote : data.objectType = "Note") :
    (send true serviceID data).2 = [(responseChannel data.toId, buildResponse data)]
    ∧ (((buildResponse data).response.outputSpeech.type = "SSML"
         ∧ (buildResponse data).response.outputSpeech.ssml = some data.content)
        ↔ (strStartsWith data.content "<speak>" && strEndsWith data.content "</speak>") = true)
    ∧ ((strStartsWith data.content "<speak>" && strEndsWith data.content "</speak>") = false →
        (buildResponse data).response.outputSpeech.type = "PlainText"
        ∧ (buildResponse data).response.outputSpeech.text = some data.content
        ∧ (buildResponse data).response.outputSpeech.ssml = none) := by
  refine ⟨by simp [send, hNote], ?_, ?_⟩
  · unfold buildResponse buildOutputSpeech
    cases h : (strStartsWith data.content "<speak>" && strEndsWith data.content "</speak>") <;>
      simp [h]
  · intro h
    unfold buildResponse buildOutputSpeech
    simp [h]

/-- C3 witness: the amended theorem applied to the spec's SSML scenario. -/
theorem c3_ssml_iff_raw_delimiters_witness :
    (send true "sid" { toId := "k1", objectType := "Note",
                       content := "<speak>hi</speak>", name := none }).2
      = [(responseChannel "k1",
          buildResponse { toId := "k1", objectType := "Note",
                          content := "<speak>hi</speak>", name := none })]
    ∧ ((buildResponse { toId := "k1", objectType := "Note",
                        content := "<speak>hi</speak>", name := none
                        : SendData }).response.outputSpeech.type = "SSML"
        ∧ (buildResponse { toId := "k1", objectType := "Note",
                           content := "<speak>hi</speak>", name := none
                           : SendData }).response.outputSpeech.ssml
            = some "<speak>hi</speak>") := by
  have h := c3_ssml_iff_raw_delimiters "sid"
    { toId := "k1", objectType := "Note", content := "<speak>hi</speak>", name := none } rfl
  exact ⟨h.1, h.2.1.mpr (by decide)⟩

/-- C4: registering a fresh correlation key and then delivering to it
invokes the registered callback exactly once, with the delivered payload;
every subsequent delivery or expiry on that same key has no effect: the
total invocation list is exactly `[(c, p)]` and the emitter returns to its
prior state. -/
theorem c4_deliver_once_then_noop {α : Type} (st : EmitterState) (k : String)
    (c : Nat) (p : α) (ops : List (CorrelationOp α))
    (hfresh : hasListenerOn st (responseChannel k) = false)
    (hops : ∀ op ∈ ops, followupOnKey k op = true) :
    runOps st (CorrelationOp.register k c :: CorrelationOp.deliver k p :: ops)
      = (st, [(c, p)]) := by
  have hemit := emitOn_after_register (c := c) hfresh
  have hrest := runOps_followup_noop (k := k) st ops hfresh hops
  simp [runOps, stepOp, addOnceListener, hemit, hrest]

/-- C4 witness: on key `k1`, register then deliver payload `5`; the later
second delivery and the expiry are no-ops, and the callback fires once. -/
theorem c4_deliver_once_then_noop_witness :
    runOps ([] : EmitterState)
        (CorrelationOp.register "k1" 0 :: CorrelationOp.deliver "k1" (5 : Nat)
          :: [CorrelationOp.deliver "k1" 6, CorrelationOp.expire "k1" 0])
      = ([], [(0, 5)]) :=
  c4_deliver_once_then_noop [] "k1" 0 5
    [CorrelationOp.deliver "k1" 6, CorrelationOp.expire "k1" 0] rfl (by decide)

/-- C5: a registered correlation key that is never delivered to is removed
automatically by the scheduled timer, which fires after 60000 ms
(Adapter.ts lines 184-186), and the registered callback is never invoked:
running register followed by the expiry yields no invocation and restores
the emitter. -/
theorem c5_expiry_removes_without_invoking (α : Type) (st : EmitterState)
    (k : String) (c : Nat) :
    (registerWithTimeout st k c).2.delayMs = 60000
    ∧ fireTimer (registerWithTimeout st k c).1 (registerWithTimeout st k c).2 = st
    ∧ runOps st [CorrelationOp.register k c, CorrelationOp.expire k c]
        = (st, ([] : List (Nat × α))) := by
  have hrem : removeListener (addOnceListener st (responseChannel k) c)
      (responseChannel k) c = st := by
    unfold addOnceListener removeListener
    rw [List.reverse_append]
    simp
  exact ⟨rfl, hrem, by simp [runOps, stepOp, hrem]⟩

/-- C6: the normalized event's `intentName` equals `requestType` whenever
`requestType ≠ "IntentRequest"`; when `requestType = "IntentRequest"`, it
equals the nested `intent.name` when that is present, and is absent (not an
error) when the nested path is missing — either because `intent` is absent
or because its `name` is. -/
theorem c6_intent_name (body : RequestBody) (messageID : String) :
    (body.request.type ≠ "IntentRequest" →
       (normalize body messageID).intentName = some body.request.type)
    ∧ (∀ i n, body.request.type = "IntentRequest" → body.request.intent = some i →
        i.name = some n → (normalize body messageID).intentName = some n)
    ∧ (body.request.type = "IntentRequest" → body.request.intent = none →
        (normalize body messageID).intentName = none)
    ∧ (∀ i, body.request.type = "IntentRequest" → body.request.intent = some i →
        i.name = none → (normalize body messageID).intentName = none) := by
  refine ⟨?_, ?_, ?_, ?_⟩
  · intro h
    simp [normalize, h]
  · intro i n ht hi hn
    simp [normalize, RequestObj.intentNamePath, ht, hi, hn]
  · intro ht hi
    simp [normalize, RequestObj.intentNamePath, ht, hi]
  · intro i ht hi hn
    simp [normalize, RequestObj.intentNamePath, ht, hi, hn]

/-- C6 witness: the spec's scenario — an `IntentRequest` with nested intent
named `Hello` normalizes to `intentName = Hello`. -/
theorem c6_intent_name_witness :
    (normalize
        { request := { type := "IntentRequest",
                       intent := some { name := some "Hello", slots := some [] } },
          session := { application := "a", user := "u" } } "m1").intentName
      = some "Hello" :=
  (c6_intent_name
      { request := { type := "IntentRequest",
                     intent := some { name := some "Hello", slots := some [] } },
        session := { application := "a", user := "u" } } "m1").2.1
    { name := some "Hello", slots := some [] } "Hello" rfl rfl rfl

/-- C7: for every outbound command that passes schema validation and whose
object type is not `Note`, `send` rejects with the
`Error('Only Note is supported.')` (the spec's `UnsupportedContentType`)
and emits no event on any correlation channel. -/
theorem c7_non_note_rejects_without_emission (serviceID : String) (data : SendData)
    (h : data.objectType ≠ "Note") :
    send true serviceID data = (Except.error SendError.onlyNoteSupported, []) := by
  simp [send, h]

/-- C7 witness: an `Image` command is rejected with no emission. -/
theorem c7_non_note_rejects_without_emission_witness :
    send true "sid" { toId := "k1", objectType := "Image", content := "c", name := none }
      = (Except.error SendError.onlyNoteSupported, []) :=
  c7_non_note_rejects_without_emission "sid"
    { toId := "k1", objectType := "Image", content := "c", name := none } (by decide)

/-- C8: every successful `send` of a Note command succeeds with
`{ type: 'sent', serviceID }` and every response payload it emits has
`shouldEndSession = true`. -/
theorem c8_should_end_session (serviceID : String) (data : SendData)
    (hNote : data.objectType = "Note") :
    (send true serviceID data).1 = Except.ok { type := "sent", serviceID := serviceID }
    ∧ ∀ e ∈ (send true serviceID data).2, e.2.response.shouldEndSession = true := by
  constructor
  · simp [send, hNote]
  · intro e he
    simp [send, hNote] at he
    simp [he, buildResponse]

/-- C8 witness: the spec's plain-text scenario ends the session. -/
theorem c8_should_end_session_witness :
    (send true "sid" { toId := "k2", objectType := "Note",
                       content := "hello", name := none }).1
      = Except.ok { type := "sent", serviceID := "sid" }
    ∧ (buildResponse { toId := "k2", objectType := "Note", content := "hello",
                       name := none : SendData }).response.shouldEndSession = true := by
  have h := c8_should_end_session "sid"
    { toId := "k2", objectType := "Note", content := "hello", name := none } rfl
  refine ⟨h.1, ?_⟩
  exact h.2 (responseChannel "k2",
    buildResponse { toId := "k2", objectType := "Note", content := "hello", name := none })
    (by simp [send])

/-- C9: `connect` is idempotent — a second call returns the same
already-connected indicator `{ type: 'connected', serviceID }` carrying the
adapter's service id, and leaves the state produced by the first call
(connected flag and webhook server included) unchanged. -/
theorem c9_connect_idempotent (a : AdapterState) :
    (connect (connect a).1).1 = (connect a).1
    ∧ (connect (connect a).1).2 = (connect a).2
    ∧ (connect a).2 = { type := "connected", serviceID := a.serviceID }
    ∧ ((connect a).1).serviceID = a.serviceID := by
  unfold connect
  cases h : a.connected <;> simp [h]

/-- C10: `getRouter` returns null exactly when the adapter was constructed
with an `http` option (so an internal webhook server exists); with no
`http` option, no webhook server is created and the configured router is
returned. -/
theorem c10_router_only_without_webhook (obj : Option AdapterOptions)
    (freshId routerToken : String) :
    ((obj.bind (fun o => o.http)).isSome = true →
       getRouter (constructAdapter obj freshId routerToken) = none)
    ∧ ((obj.bind (fun o => o.http)) = none →
       getRouter (constructAdapter obj freshId routerToken) = some routerToken) := by
  constructor <;> intro h
  · rw [Option.isSome_iff_exists] at h
    obtain ⟨v, hv⟩ := h
    simp [getRouter, constructAdapter, hv]
  · simp [getRouter, constructAdapter, h]

/-- C10 witness: with an `http` option the router accessor yields null;
without options it yields the router. -/
theorem c10_router_only_without_webhook_witness :
    getRouter (constructAdapter (some { serviceID := none, http := some "h" }) "f" "r") = none
    ∧ getRouter (constructAdapter none "f" "r") = some "r" :=
  ⟨(c10_router_only_without_webhook (some { serviceID := none, http := some "h" }) "f" "r").1
      rfl,
   (c10_router_only_without_webhook none "f" "r").2 rfl⟩

end BroidAlexa
